import Mathlib

/-!
Shallow embedding of `neural_pipeline/data_processor/data_processor.py`:
the `DataProcessor` / `TrainDataProcessor` classes, their external
collaborators (optimizer, objective function, metrics collector,
learning-rate holder, model wrapper) as abstract interfaces, and the three
persisted checkpoint artifacts.

Modelling conventions:
* scalar tensor payloads, losses, gradients and learning rates are rationals;
* a numpy cell that may hold uninitialized memory is `Option ℚ`
  (`none` = uninitialized);
* Python exceptions are modelled by returning `Option PyError` next to the
  post-call state, so partial mutation before a raise stays observable;
* the caller-visible batch mapping is threaded through `predict` and
  `process_batch` to model in-place mutation of the batch dict.
-/

namespace NP

/-- Device tag carried by a tensor leaf (`cpu`, or `cuda` after `.to` cuda). -/
inductive Device where
  | cpu
  | cuda
  deriving DecidableEq

mutual

/-- A batch value: a tensor leaf or a nested string-keyed mapping of values
(the recursive duck-typed batch layout the source traverses). -/
inductive TVal where
  | tensor (dev : Device) (v : ℚ)
  | dmap (es : TEntries)

/-- The entries of a nested mapping inside a `TVal`. -/
inductive TEntries where
  | enil
  | econs (key : String) (val : TVal) (rest : TEntries)

end

mutual

/-- `DataProcessor._process_data`: move every tensor leaf to the cuda device.
Modelled from the spec: the helper `dict_recursive_bypass` lives in
`utils/utils.py`, which is not under `src/`; spec sections 4.1 and 9 describe
the transfer as a total recursive traversal through nested mappings applying
the device move to every leaf. -/
def process_data : TVal → TVal
  | .tensor _ v => .tensor Device.cuda v
  | .dmap es => .dmap (process_entries es)

/-- The recursive transfer over the entries of a nested mapping. -/
def process_entries : TEntries → TEntries
  | .enil => .enil
  | .econs k v rest => .econs k (process_data v) (process_entries rest)

end

/-- A batch dict with its two keys, `data` and `target` (source docstring of
`process_batch`). -/
structure Batch where
  data : TVal
  target : TVal

/-- The sticky training/evaluation mode of the torch module. -/
inductive Mode where
  | train
  | eval
  deriving DecidableEq

/-- The `Model` wrapper state: the weights it owns and the module mode.
Weights are abstracted to one rational. -/
structure ModelW where
  weights : ℚ
  mode : Mode

/-- The optimizer collaborator (spec section 6): a serializable keyed state, a
learning rate per parameter group, and the accumulated gradient.  `applied`
is a ghost ledger recording the gradient value consumed by each `step()`
call, in order; it has no effect on behavior. -/
structure Optimizer where
  stateDict : List (String × ℚ)
  param_groups : List ℚ
  grad : ℚ
  applied : List ℚ

/-- `optimizer.state_dict()`. -/
def Optimizer.state_dict (o : Optimizer) : List (String × ℚ) :=
  o.stateDict

/-- `optimizer.load_state_dict(s)`: replaces the serializable state. -/
def Optimizer.load_state_dict (o : Optimizer) (s : List (String × ℚ)) : Optimizer :=
  { o with stateDict := s }

/-- `optimizer.zero_grad()`: clears the accumulated gradient. -/
def Optimizer.zero_grad (o : Optimizer) : Optimizer :=
  { o with grad := 0 }

/-- The pure collaborator functions consumed through narrow interfaces (spec
section 6): the model forward pass, the objective function, the gradient that
`loss.backward()` accumulates for a batch, whether the metrics collector
raises on a call, and the weight update `step()` performs from a gradient. -/
structure Collab where
  forward : ℚ → TVal → ℚ
  criterion : ℚ → TVal → ℚ
  grad_of : ℚ → TVal → TVal → ℚ
  metrics_fails : ℚ → TVal → Bool → Bool
  stepF : ℚ → ℚ → ℚ

/-- The part of the train-pipeline configuration that seeds a fresh
`TrainDataProcessor`: the initial learning-rate holder value and the freshly
constructed optimizer. -/
structure TrainConfig where
  learning_rate0 : ℚ
  optimizer0 : Optimizer

/-- The mutable state of a `TrainDataProcessor` instance. -/
structure TrainDataProcessor where
  is_cuda : Bool
  model : ModelW
  optimizer : Optimizer
  learning_rate : ℚ
  epoch_num : Int
  train_loss_values : List (Option ℚ)
  val_loss_values : List (Option ℚ)

/-- `TrainDataProcessor.__init__`: epoch counter starts at 0, both loss
histories start as `np.array([])` (genuinely empty), the learning-rate holder
and the optimizer come from the train pipeline; torch modules start in
training mode. -/
def mkTrainDataProcessor (cfg : TrainConfig) (model0 : ℚ) (is_cuda : Bool) :
    TrainDataProcessor :=
  { is_cuda := is_cuda
    model := { weights := model0, mode := Mode.train }
    optimizer := cfg.optimizer0
    learning_rate := cfg.learning_rate0
    epoch_num := 0
    train_loss_values := []
    val_loss_values := [] }

/-- Result of `predict`: the returned output, the caller-visible batch dict
after in-place mutation, and the instance state after the call. -/
structure PredictResult where
  output : ℚ
  batch : Batch
  st : TrainDataProcessor

/-- `TrainDataProcessor.predict(data, is_train)`: in training mode the model
is set to train mode and run with gradient tracking; otherwise the inference
path of the base class runs (eval mode, no gradient tracking).  On both paths
`data['data']` is replaced by its device-transferred version when cuda is
enabled, mutating the caller's dict. -/
def TrainDataProcessor.predict (c : Collab) (s : TrainDataProcessor) (b : Batch)
    (is_train : Bool) : PredictResult :=
  let b1 := if s.is_cuda then { b with data := process_data b.data } else b
  let m := if is_train then Mode.train else Mode.eval
  let s1 := { s with model := { s.model with mode := m } }
  { output := c.forward s1.model.weights b1.data, batch := b1, st := s1 }

/-- Exceptions surfaced by the embedded operations (spec section 7 taxonomy). -/
inductive PyError where
  | checkpointMissing
  | metricsFailure
  deriving DecidableEq

/-- The per-batch events of `process_batch`, in execution order. -/
inductive Ev where
  | zeroGrad
  | forward
  | metrics
  | lossCalc
  | backward
  | step
  | append
  deriving DecidableEq

/-- Result of `process_batch`: the raised exception if any, the instance
state after the call (partial mutations kept on a raise), the caller-visible
batch dict, and the trace of events that actually ran. -/
structure BatchResult where
  err : Option PyError
  st : TrainDataProcessor
  batch : Batch
  trace : List Ev

/-- `TrainDataProcessor.process_batch(batch, is_train)`, line for line:
transfer `batch['target']` in place when cuda is enabled; if training, zero
the gradients; run `predict`; call the metrics collector (no handler: a raise
propagates at once); compute the loss; if training, backward then step;
append the scalar loss to the train or validation history. -/
def TrainDataProcessor.process_batch (c : Collab) (s : TrainDataProcessor)
    (b : Batch) (is_train : Bool) : BatchResult :=
  let b1 := if s.is_cuda then { b with target := process_data b.target } else b
  let s1 := if is_train then { s with optimizer := s.optimizer.zero_grad } else s
  let tr1 := if is_train then [Ev.zeroGrad] else []
  let pr := s1.predict c b1 is_train
  let s2 := pr.st
  let b2 := pr.batch
  let tr2 := tr1 ++ [Ev.forward, Ev.metrics]
  if c.metrics_fails pr.output b2.target is_train then
    { err := some PyError.metricsFailure, st := s2, batch := b2, trace := tr2 }
  else
    let loss := c.criterion pr.output b2.target
    let tr3 := tr2 ++ [Ev.lossCalc]
    if is_train then
      let g := c.grad_of s2.model.weights b2.data b2.target
      let opt1 := { s2.optimizer with grad := s2.optimizer.grad + g }
      let s3 := { s2 with
        model := { s2.model with weights := c.stepF s2.model.weights opt1.grad }
        optimizer := { opt1 with applied := opt1.applied ++ [opt1.grad] } }
      { err := none
        st := { s3 with train_loss_values := s3.train_loss_values ++ [some loss] }
        batch := b2
        trace := tr3 ++ [Ev.backward, Ev.step, Ev.append] }
    else
      { err := none
        st := { s2 with val_loss_values := s2.val_loss_values ++ [some loss] }
        batch := b2
        trace := tr3 ++ [Ev.append] }

/-- The loop body shared by the two phases of `train_epoch`: process the
batches in order; an exception from `process_batch` propagates, abandoning
the rest of the loop. -/
def run_batches (c : Collab) (s : TrainDataProcessor) (bs : List Batch)
    (is_train : Bool) : Option PyError × TrainDataProcessor :=
  match bs with
  | [] => (none, s)
  | b :: rest =>
    let r := s.process_batch c b is_train
    match r.err with
    | some e => (some e, r.st)
    | none => run_batches c r.st rest is_train

/-- `TrainDataProcessor.train_epoch`: the full training pass, then the full
validation pass, then the epoch counter is assigned the caller-supplied
`epoch_idx`.  Progress display is not modelled. -/
def TrainDataProcessor.train_epoch (c : Collab) (s : TrainDataProcessor)
    (train_dataloader validation_dataloader : List Batch) (epoch_idx : Int) :
    Option PyError × TrainDataProcessor :=
  match run_batches c s train_dataloader true with
  | (some e, s1) => (some e, s1)
  | (none, s1) =>
    match run_batches c s1 validation_dataloader false with
    | (some e, s2) => (some e, s2)
    | (none, s2) => (none, { s2 with epoch_num := epoch_idx })

/-- `TrainDataProcessor.update_lr(lr)`: overwrite the learning rate in every
optimizer parameter group; the learning-rate holder is not touched. -/
def TrainDataProcessor.update_lr (s : TrainDataProcessor) (lr : ℚ) :
    TrainDataProcessor :=
  { s with optimizer :=
      { s.optimizer with param_groups := s.optimizer.param_groups.map fun _ => lr } }

/-- `TrainDataProcessor.get_last_epoch_idx()`. -/
def TrainDataProcessor.get_last_epoch_idx (s : TrainDataProcessor) : Int :=
  s.epoch_num

/-- The parsed content of the structured state file
`{"last_epoch_idx": ..., "lr": ...}`. -/
structure DPStateDoc where
  last_epoch_idx : Int
  lr : ℚ

/-- The three checkpoint artifacts at the stable paths the file-structure
resolver supplies; `none` means the file is absent. -/
structure FS where
  weights_file : Option ℚ
  optimizer_state_file : Option (List (String × ℚ))
  data_processor_state_file : Option DPStateDoc

/-- `TrainDataProcessor.save_state()`: writes the optimizer state dict, the
structured state `{last_epoch_idx, lr}` taken from the epoch counter and the
learning-rate holder, and the model weights.  (The source writes them in that
order; order is immaterial here since no write fails.)  Weight persistence is
modelled from the spec: `Model.save_weights` is not under `src/`; spec
section 4.2 item save_state lists the weights as the third artifact. -/
def TrainDataProcessor.save_state (s : TrainDataProcessor) (fs : FS) : FS :=
  { fs with
    optimizer_state_file := some s.optimizer.state_dict
    data_processor_state_file :=
      some { last_epoch_idx := s.epoch_num, lr := s.learning_rate }
    weights_file := some s.model.weights }

/-- Modelled from the spec: `Model.load_weights` (the `Model` class is not
under `src/`).  Spec section 4.1: restore the weights from the artifact;
fail with `CheckpointMissing` when the weight artifact is absent. -/
def ModelW.load_weights (m : ModelW) (fs : FS) : Option ModelW :=
  fs.weights_file.map fun w => { m with weights := w }

/-- Result of `load`: the raised exception if any, and the instance state
after the call (partial mutations kept on a raise). -/
structure LoadResult where
  err : Option PyError
  st : TrainDataProcessor

/-- `TrainDataProcessor.load()`, line for line: restore weights through the
base class (raises `CheckpointMissing` when absent); read the optimizer blob
(raises when absent); keep only the blob entries whose key occurs in the
current optimizer's own `state_dict()` and load that filtered dict; read the
structured state file (raises when absent); assign the epoch counter, push
the persisted learning rate into every parameter group via `update_lr`, and
set the learning-rate holder to the same value. -/
def TrainDataProcessor.load (s : TrainDataProcessor) (fs : FS) : LoadResult :=
  match s.model.load_weights fs with
  | none => { err := some PyError.checkpointMissing, st := s }
  | some m1 =>
    let s1 := { s with model := m1 }
    match fs.optimizer_state_file with
    | none => { err := some PyError.checkpointMissing, st := s1 }
    | some blob =>
      let cur := s1.optimizer.state_dict.map Prod.fst
      let filtered := blob.filter fun kv => cur.elem kv.1
      let s2 := { s1 with optimizer := s1.optimizer.load_state_dict filtered }
      match fs.data_processor_state_file with
      | none => { err := some PyError.checkpointMissing, st := s2 }
      | some doc =>
        let s3 := { s2 with epoch_num := doc.last_epoch_idx }
        let s4 := s3.update_lr doc.lr
        { err := none, st := { s4 with learning_rate := doc.lr } }

/-- The dict `get_losses()` returns, with its two keys. -/
structure Losses where
  train : List (Option ℚ)
  validation : List (Option ℚ)

/-- `TrainDataProcessor.get_losses()`, exactly as written at line 200 of the
source: the `train` key carries `__val_loss_values` and the `validation` key
carries `__train_loss_values`. -/
def TrainDataProcessor.get_losses (s : TrainDataProcessor) : Losses :=
  { train := s.val_loss_values, validation := s.train_loss_values }

/-- `np.ndarray([])` builds an array of shape `()`: a 0-dimensional array
holding exactly one uninitialized scalar.  It is not the empty array
`np.array([])`. -/
def np_ndarray_empty_shape : List (Option ℚ) :=
  [none]

/-- `TrainDataProcessor.reset_losses()`, exactly as written at line 203 of
the source: both histories are reassigned `np.ndarray([])`. -/
def TrainDataProcessor.reset_losses (s : TrainDataProcessor) : TrainDataProcessor :=
  { s with
    val_loss_values := np_ndarray_empty_shape
    train_loss_values := np_ndarray_empty_shape }

/-- The spec's notion of restricting a keyed blob to the keys a current
optimizer already has (spec wording: "retains only the intersecting keys",
"the blob restricted to the keys the current optimizer already has"). -/
def restrict_to_keys (blob : List (String × ℚ)) (keys : List String) :
    List (String × ℚ) :=
  blob.filter fun kv => decide (kv.1 ∈ keys)

/-- The rational 1/100, the spec scenario's learning-rate value `0.01`. -/
def q001 : ℚ :=
  ⟨1, 100, by decide, Nat.coprime_one_left 100⟩

/-- A concrete optimizer for closed evaluations: two state keys, one
parameter group whose learning rate agrees with the holder below. -/
def optA : Optimizer :=
  { stateDict := [("a", 0), ("b", 0)], param_groups := [1], grad := 0, applied := [] }

/-- A concrete train-pipeline configuration: holder value 1, optimizer `optA`. -/
def cfgA : TrainConfig :=
  { learning_rate0 := 1, optimizer0 := optA }

/-- Concrete benign collaborators: the metrics collector never raises. -/
def collabA : Collab :=
  { forward := fun w _ => w
    criterion := fun _ _ => 7
    grad_of := fun _ _ _ => 3
    metrics_fails := fun _ _ _ => false
    stepF := fun w _ => w }

/-- Concrete collaborators whose metrics collector always raises. -/
def collabFail : Collab :=
  { forward := fun w _ => w
    criterion := fun _ _ => 7
    grad_of := fun _ _ _ => 3
    metrics_fails := fun _ _ _ => true
    stepF := fun w _ => w }

/-- A concrete batch of plain cpu tensors. -/
def batchA : Batch :=
  { data := TVal.tensor Device.cpu 5, target := TVal.tensor Device.cpu 6 }

/-- The empty filesystem: no checkpoint artifact exists. -/
def fsEmpty : FS :=
  { weights_file := none, optimizer_state_file := none, data_processor_state_file := none }

/-- A freshly constructed instance over `cfgA`, cuda disabled. -/
def freshA : TrainDataProcessor :=
  mkTrainDataProcessor cfgA 0 false

/-- A freshly constructed instance over `cfgA`, cuda enabled. -/
def freshCudaA : TrainDataProcessor :=
  mkTrainDataProcessor cfgA 0 true

/-- `freshA` after `update_lr(2)`: holder still 1, parameter groups at 2. -/
def sA : TrainDataProcessor :=
  freshA.update_lr 2

/-- The filesystem after `sA.save_state()`. -/
def fsA : FS :=
  sA.save_state fsEmpty

/-- `freshA` after `update_lr(0.01)`: holder still 1, parameter groups at 1/100. -/
def sB : TrainDataProcessor :=
  freshA.update_lr q001

/-- The filesystem after `sB.save_state()`. -/
def fsB : FS :=
  sB.save_state fsEmpty

/-- C1, counterexample.  `update_lr(2)` leaves the holder at 1; the
round trip then restores parameter groups at 1, not at the original 2: the
fresh instance's `load` succeeds yet its parameter-group learning rates
differ from the original instance's at the moment of the save. -/
theorem round_trip_param_groups_cex :
    (freshA.load fsA).err = none ∧
      (freshA.load fsA).st.optimizer.param_groups ≠ sA.optimizer.param_groups := by
  decide

/-- C1, amended.  `save_state()` followed by a fresh instance's `load()`
succeeds and restores the epoch index and the learning-rate holder value of
the original at the save; every optimizer parameter group of the fresh
instance is set to that holder value (which equals the original groups' own
rates only when holder and groups agreed at the save). -/
theorem round_trip_restores_epoch_and_holder (cfg : TrainConfig) (w : ℚ)
    (cu : Bool) (s : TrainDataProcessor) (fs : FS) :
    ((mkTrainDataProcessor cfg w cu).load (s.save_state fs)).err = none ∧
      ((mkTrainDataProcessor cfg w cu).load (s.save_state fs)).st.epoch_num
        = s.epoch_num ∧
      ((mkTrainDataProcessor cfg w cu).load (s.save_state fs)).st.learning_rate
        = s.learning_rate ∧
      ((mkTrainDataProcessor cfg w cu).load (s.save_state fs)).st.optimizer.param_groups
        = cfg.optimizer0.param_groups.map fun _ => s.learning_rate :=
  ⟨rfl, rfl, rfl, rfl⟩

/-- C2, counterexample.  With the holder at 1, calling `update_lr(0.01)` then
`save_state()` then `load()` on a new instance restores a holder reporting 1,
not 0.01: `update_lr` never writes the holder, and `save_state` persists the
holder's value. -/
theorem update_lr_not_persisted_cex :
    (freshA.load fsB).err = none ∧ (freshA.load fsB).st.learning_rate ≠ q001 := by
  decide

/-- C2, amended.  After `update_lr(0.01)` then `save_state()` then `load()`
on a new instance, the restored learning-rate holder reports the holder's
value at the save (`update_lr` does not write the holder), which is 0.01 only
if the holder already held 0.01. -/
theorem load_restores_presave_holder_value (cfg : TrainConfig) (w : ℚ)
    (cu : Bool) (s : TrainDataProcessor) (fs : FS) :
    ((mkTrainDataProcessor cfg w cu).load ((s.update_lr q001).save_state fs)).err
        = none ∧
      ((mkTrainDataProcessor cfg w cu).load
          ((s.update_lr q001).save_state fs)).st.learning_rate
        = s.learning_rate :=
  ⟨rfl, rfl⟩

/-- C3, theorem at the failing input.  One `process_batch` with
`is_train=True` on a fresh instance completes, yet the appended training loss
is returned by `get_losses()` under the `validation` key (length 1), while
the `train` key stays empty: line 200 of the source swaps the two keys. -/
theorem train_loss_reported_under_validation_key :
    (freshA.process_batch collabA batchA true).err = none ∧
      ((freshA.process_batch collabA batchA true).st.get_losses).validation.length = 1 ∧
      ((freshA.process_batch collabA batchA true).st.get_losses).train.length = 0 :=
  ⟨rfl, rfl, rfl⟩

/-- C4, theorem at the failing input.  After `reset_losses()` both histories
returned by `get_losses()` are `np.ndarray([])`: a 0-dimensional array
holding one uninitialized scalar, hence not the empty sequence the spec
states. -/
theorem reset_losses_leaves_singleton_histories :
    ((freshA.reset_losses).get_losses).train = [none] ∧
      ((freshA.reset_losses).get_losses).validation = [none] ∧
      ((freshA.reset_losses).get_losses).train ≠ [] :=
  ⟨rfl, rfl, by decide⟩

/-- C5 (confirmed).  For a training batch on which the metrics collector does
not raise, `process_batch` completes with the fixed event order gradient
reset, forward, metrics, loss, backward, step, history append; and the
gradient the optimizer step consumes is exactly this batch's own backward
contribution — whatever gradient the optimizer had accumulated before the
call was erased by the reset that precedes the forward pass. -/
theorem process_batch_train_order (c : Collab) (s : TrainDataProcessor) (b : Batch)
    (hm : c.metrics_fails
        (c.forward s.model.weights (if s.is_cuda then process_data b.data else b.data))
        (if s.is_cuda then process_data b.target else b.target) true = false) :
    (s.process_batch c b true).err = none ∧
      (s.process_batch c b true).trace
        = [Ev.zeroGrad, Ev.forward, Ev.metrics, Ev.lossCalc, Ev.backward,
            Ev.step, Ev.append] ∧
      (s.process_batch c b true).st.optimizer.applied
        = s.optimizer.applied ++
            [c.grad_of s.model.weights
              (if s.is_cuda then process_data b.data else b.data)
              (if s.is_cuda then process_data b.target else b.target)] := by
  cases hc : s.is_cuda <;>
    simp only [TrainDataProcessor.process_batch, TrainDataProcessor.predict,
      Optimizer.zero_grad, hc, Bool.false_eq_true, if_true, if_false] at hm ⊢ <;>
    simp [hm]

/-- Witness for C5 at a concrete instance, batch and collaborator set. -/
theorem process_batch_train_order_witness :
    (freshA.process_batch collabA batchA true).err = none ∧
      (freshA.process_batch collabA batchA true).trace
        = [Ev.zeroGrad, Ev.forward, Ev.metrics, Ev.lossCalc, Ev.backward,
            Ev.step, Ev.append] ∧
      (freshA.process_batch collabA batchA true).st.optimizer.applied
        = freshA.optimizer.applied ++
            [collabA.grad_of freshA.model.weights
              (if freshA.is_cuda then process_data batchA.data else batchA.data)
              (if freshA.is_cuda then process_data batchA.target else batchA.target)] :=
  process_batch_train_order collabA freshA batchA rfl

/-- An optimizer whose single state key is a strict subset of the keys of
the saved blob in `fsC6`. -/
def optC6 : Optimizer :=
  { stateDict := [("a", 0)], param_groups := [1], grad := 0, applied := [] }

/-- A fresh instance over `optC6`, cuda disabled. -/
def sC6 : TrainDataProcessor :=
  mkTrainDataProcessor { learning_rate0 := 1, optimizer0 := optC6 } 0 false

/-- A filesystem holding a full checkpoint whose optimizer blob has the
extra, stale key `b`. -/
def fsC6 : FS :=
  { weights_file := some 0
    optimizer_state_file := some [("a", 2), ("b", 3)]
    data_processor_state_file := some { last_epoch_idx := 4, lr := 1 } }

/-- C6 (confirmed).  When the full checkpoint is present and the current
optimizer's state keys are a strict subset of the saved blob's keys, `load()`
succeeds without raising, and the optimizer state it restores is exactly the
blob restricted to the keys the current optimizer already has: stale keys
are silently dropped by the filtering step, never surfaced as an error. -/
theorem load_filters_optimizer_state (s : TrainDataProcessor) (fs : FS)
    (w : ℚ) (blob : List (String × ℚ)) (doc : DPStateDoc)
    (hw : fs.weights_file = some w)
    (ho : fs.optimizer_state_file = some blob)
    (hd : fs.data_processor_state_file = some doc)
    (hsub : (s.optimizer.state_dict.map Prod.fst).toFinset
        ⊂ (blob.map Prod.fst).toFinset) :
    (s.load fs).err = none ∧
      (s.load fs).st.optimizer.stateDict
        = restrict_to_keys blob (s.optimizer.state_dict.map Prod.fst) := by
  constructor
  · simp [TrainDataProcessor.load, ModelW.load_weights, hw, ho, hd]
  · simp [TrainDataProcessor.load, ModelW.load_weights, hw, ho, hd,
      Optimizer.load_state_dict, Optimizer.state_dict, restrict_to_keys,
      TrainDataProcessor.update_lr, List.elem_eq_mem]

/-- Witness for C6: a concrete strict-subset checkpoint load. -/
theorem load_filters_optimizer_state_witness :
    (sC6.load fsC6).err = none ∧
      (sC6.load fsC6).st.optimizer.stateDict
        = restrict_to_keys [("a", 2), ("b", 3)] (sC6.optimizer.state_dict.map Prod.fst) :=
  load_filters_optimizer_state sC6 fsC6 0 [("a", 2), ("b", 3)]
    { last_epoch_idx := 4, lr := 1 } rfl rfl rfl (by decide)

/-- C7 (confirmed).  When the checkpoint does not exist, `load()` raises
`CheckpointMissing` — the weight restore fails before any assignment — and
the in-memory epoch counter keeps its prior value. -/
theorem load_missing_checkpoint_preserves_epoch (s : TrainDataProcessor) (fs : FS)
    (h1 : fs.weights_file = none) (h2 : fs.optimizer_state_file = none)
    (h3 : fs.data_processor_state_file = none) :
    (s.load fs).err = some PyError.checkpointMissing ∧
      (s.load fs).st.get_last_epoch_idx = s.get_last_epoch_idx := by
  simp [TrainDataProcessor.load, ModelW.load_weights, h1]

/-- Witness for C7: loading against the empty filesystem. -/
theorem load_missing_checkpoint_preserves_epoch_witness :
    (freshA.load fsEmpty).err = some PyError.checkpointMissing ∧
      (freshA.load fsEmpty).st.get_last_epoch_idx = freshA.get_last_epoch_idx :=
  load_missing_checkpoint_preserves_epoch freshA fsEmpty rfl rfl rfl

/-- `freshA` after a successful (empty) epoch with `epoch_idx = 5`. -/
def sEp5 : TrainDataProcessor :=
  (freshA.train_epoch collabA [] [] 5).2

/-- C8, counterexample.  From an instance whose epoch counter is 5, calling
`train_epoch` with `epoch_idx = 3` drives the counter down to 3 (it is
assigned, not advanced), and a successful `load()` also overwrites the
counter (here to the persisted value 4) even though it is not `train_epoch`:
the counter is neither modified only by `train_epoch` nor non-decreasing. -/
theorem epoch_counter_decreases_cex :
    sEp5.get_last_epoch_idx = 5 ∧
      ((sEp5.train_epoch collabA [] [] 3).2).get_last_epoch_idx = 3 ∧
      ((sEp5.train_epoch collabA [] [] 3).2).get_last_epoch_idx
        < sEp5.get_last_epoch_idx ∧
      (sEp5.load fsC6).err = none ∧
      (sEp5.load fsC6).st.get_last_epoch_idx = 4 := by
  decide

/-- `predict` never touches the epoch counter. -/
theorem predict_st_epoch_num (c : Collab) (s : TrainDataProcessor) (b : Batch)
    (it : Bool) : (s.predict c b it).st.epoch_num = s.epoch_num := by
  cases hc : s.is_cuda <;> simp [TrainDataProcessor.predict, hc]

/-- `process_batch` never touches the epoch counter, on any path: training or
validation, metrics raising or not. -/
theorem process_batch_st_epoch_num (c : Collab) (s : TrainDataProcessor)
    (b : Batch) (it : Bool) :
    (s.process_batch c b it).st.epoch_num = s.epoch_num := by
  cases hc : s.is_cuda <;> cases it <;>
    simp [TrainDataProcessor.process_batch, TrainDataProcessor.predict,
      Optimizer.zero_grad, hc, apply_ite]

/-- The batch loop of `train_epoch` never touches the epoch counter, whether
it completes or an exception abandons it. -/
theorem run_batches_st_epoch_num (c : Collab) (bs : List Batch) (it : Bool) :
    ∀ s : TrainDataProcessor, (run_batches c s bs it).2.epoch_num = s.epoch_num := by
  induction bs with
  | nil => intro s; simp [run_batches]
  | cons b rest ih =>
    intro s
    cases he : (s.process_batch c b it).err <;>
      simp [run_batches, he, ih, process_batch_st_epoch_num]

/-- C8, amended.  The epoch counter is written by exactly two operations:
a `train_epoch` that completes without an exception assigns it the
caller-supplied `epoch_idx`, and a successful `load()` assigns it the
persisted `last_epoch_idx`; neither assignment is guarded, so the counter
decreases whenever the supplied index is smaller than the current value.
Exclusivity: `process_batch`, `predict`, `update_lr`, `reset_losses`, the
batch loop itself, a `train_epoch` that raises, and a `load()` that raises
all leave the counter unchanged. -/
theorem epoch_counter_set_by_train_epoch_and_load (c : Collab)
    (s : TrainDataProcessor) (tl vl tl2 vl2 bs : List Batch) (i i2 : Int)
    (fs fs2 : FS) (w : ℚ) (blob : List (String × ℚ)) (doc : DPStateDoc)
    (b : Batch) (it : Bool) (lr : ℚ)
    (hsucc : (s.train_epoch c tl vl i).1 = none)
    (hw : fs.weights_file = some w)
    (ho : fs.optimizer_state_file = some blob)
    (hd : fs.data_processor_state_file = some doc) :
    ((s.train_epoch c tl vl i).2).get_last_epoch_idx = i ∧
      (s.load fs).st.get_last_epoch_idx = doc.last_epoch_idx ∧
      (s.process_batch c b it).st.get_last_epoch_idx = s.get_last_epoch_idx ∧
      (s.predict c b it).st.get_last_epoch_idx = s.get_last_epoch_idx ∧
      (s.update_lr lr).get_last_epoch_idx = s.get_last_epoch_idx ∧
      (s.reset_losses).get_last_epoch_idx = s.get_last_epoch_idx ∧
      (run_batches c s bs it).2.get_last_epoch_idx = s.get_last_epoch_idx ∧
      ((s.train_epoch c tl2 vl2 i2).1 ≠ none →
        ((s.train_epoch c tl2 vl2 i2).2).get_last_epoch_idx
          = s.get_last_epoch_idx) ∧
      ((s.load fs2).err ≠ none →
        (s.load fs2).st.get_last_epoch_idx = s.get_last_epoch_idx) := by
  refine ⟨?_, ?_, ?_, ?_, ?_, ?_, ?_, ?_, ?_⟩
  · rcases h1 : run_batches c s tl true with ⟨e1, s1⟩
    rcases h2 : run_batches c s1 vl false with ⟨e2, s2⟩
    cases e1 <;> cases e2 <;>
      simp [TrainDataProcessor.train_epoch, h1, h2,
        TrainDataProcessor.get_last_epoch_idx] at hsucc ⊢
  · simp [TrainDataProcessor.load, ModelW.load_weights, hw, ho, hd,
      TrainDataProcessor.update_lr, TrainDataProcessor.get_last_epoch_idx]
  · simp [TrainDataProcessor.get_last_epoch_idx, process_batch_st_epoch_num]
  · simp [TrainDataProcessor.get_last_epoch_idx, predict_st_epoch_num]
  · simp [TrainDataProcessor.get_last_epoch_idx, TrainDataProcessor.update_lr]
  · simp [TrainDataProcessor.get_last_epoch_idx, TrainDataProcessor.reset_losses]
  · simp [TrainDataProcessor.get_last_epoch_idx, run_batches_st_epoch_num]
  · intro hfail
    rcases h1 : run_batches c s tl2 true with ⟨e1, s1⟩
    rcases h2 : run_batches c s1 vl2 false with ⟨e2, s2⟩
    have p1 : s1.epoch_num = s.epoch_num := by
      have := run_batches_st_epoch_num c tl2 true s
      rw [h1] at this
      exact this
    have p2 : s2.epoch_num = s1.epoch_num := by
      have := run_batches_st_epoch_num c vl2 false s1
      rw [h2] at this
      exact this
    cases e1 <;> cases e2 <;>
      simp [TrainDataProcessor.train_epoch, h1, h2,
        TrainDataProcessor.get_last_epoch_idx, p1, p2] at hfail ⊢
  · rcases fs2 with ⟨wf, of, df⟩
    cases wf <;> cases of <;> cases df <;>
      simp [TrainDataProcessor.load, ModelW.load_weights,
        TrainDataProcessor.update_lr, TrainDataProcessor.get_last_epoch_idx]

/-- Witness for C8 at a concrete empty epoch, a concrete checkpoint, and the
concrete other operations. -/
theorem epoch_counter_set_by_train_epoch_and_load_witness :
    ((freshA.train_epoch collabA [] [] 9).2).get_last_epoch_idx = 9 ∧
      (freshA.load fsC6).st.get_last_epoch_idx
        = (DPStateDoc.mk 4 1).last_epoch_idx ∧
      (freshA.process_batch collabA batchA true).st.get_last_epoch_idx
        = freshA.get_last_epoch_idx ∧
      (freshA.predict collabA batchA true).st.get_last_epoch_idx
        = freshA.get_last_epoch_idx ∧
      (freshA.update_lr 2).get_last_epoch_idx = freshA.get_last_epoch_idx ∧
      (freshA.reset_losses).get_last_epoch_idx = freshA.get_last_epoch_idx ∧
      (run_batches collabA freshA [batchA] true).2.get_last_epoch_idx
        = freshA.get_last_epoch_idx ∧
      ((freshA.train_epoch collabA [batchA] [] 7).1 ≠ none →
        ((freshA.train_epoch collabA [batchA] [] 7).2).get_last_epoch_idx
          = freshA.get_last_epoch_idx) ∧
      ((freshA.load fsEmpty).err ≠ none →
        (freshA.load fsEmpty).st.get_last_epoch_idx
          = freshA.get_last_epoch_idx) :=
  epoch_counter_set_by_train_epoch_and_load collabA freshA [] [] [batchA] []
    [batchA] 9 7 fsC6 fsEmpty 0 [("a", 2), ("b", 3)] (DPStateDoc.mk 4 1)
    batchA true 2 rfl rfl rfl rfl

/-- C9, counterexample.  With a metrics collector that raises, a training
batch aborts at the metrics call: the exception propagates out of
`process_batch`, the loss is never computed or appended to either history,
and no optimizer step runs — the batch does not continue to completion. -/
theorem metrics_failure_aborts_batch_cex :
    (freshA.process_batch collabFail batchA true).err = some PyError.metricsFailure ∧
      (freshA.process_batch collabFail batchA true).st.train_loss_values = [] ∧
      (freshA.process_batch collabFail batchA true).st.val_loss_values = [] ∧
      (freshA.process_batch collabFail batchA true).st.optimizer.applied = [] ∧
      (freshA.process_batch collabFail batchA true).trace
        = [Ev.zeroGrad, Ev.forward, Ev.metrics] :=
  ⟨rfl, rfl, rfl, rfl, rfl⟩

/-- C9, amended.  A metrics collector error during `process_batch` propagates
to the caller — there is no handler around `calc_metrics` — so the batch
aborts: the loss histories are left unchanged and the optimizer applies no
step. -/
theorem metrics_failure_propagates (c : Collab) (s : TrainDataProcessor)
    (b : Batch) (it : Bool)
    (hm : c.metrics_fails
        (c.forward s.model.weights (if s.is_cuda then process_data b.data else b.data))
        (if s.is_cuda then process_data b.target else b.target) it = true) :
    (s.process_batch c b it).err = some PyError.metricsFailure ∧
      (s.process_batch c b it).st.train_loss_values = s.train_loss_values ∧
      (s.process_batch c b it).st.val_loss_values = s.val_loss_values ∧
      (s.process_batch c b it).st.optimizer.applied = s.optimizer.applied := by
  cases hc : s.is_cuda <;> cases it <;>
    simp only [TrainDataProcessor.process_batch, TrainDataProcessor.predict,
      Optimizer.zero_grad, hc, Bool.false_eq_true, if_true, if_false] at hm ⊢ <;>
    simp [hm]

/-- Witness for C9: the always-raising collector on a concrete batch. -/
theorem metrics_failure_propagates_witness :
    (freshA.process_batch collabFail batchA true).err = some PyError.metricsFailure ∧
      (freshA.process_batch collabFail batchA true).st.train_loss_values
        = freshA.train_loss_values ∧
      (freshA.process_batch collabFail batchA true).st.val_loss_values
        = freshA.val_loss_values ∧
      (freshA.process_batch collabFail batchA true).st.optimizer.applied
        = freshA.optimizer.applied :=
  metrics_failure_propagates collabFail freshA batchA true rfl

/-- C10 (confirmed).  With cuda enabled, the caller's batch mapping is
mutated in place: after `predict` the `data` entry, and after
`process_batch` both the `target` and the `data` entries, hold the
device-transferred versions of the original values. -/
theorem cuda_transfer_mutates_batch (c : Collab) (s : TrainDataProcessor)
    (b : Batch) (it : Bool) (hcuda : s.is_cuda = true) :
    (s.predict c b it).batch.data = process_data b.data ∧
      (s.process_batch c b it).batch.target = process_data b.target ∧
      (s.process_batch c b it).batch.data = process_data b.data := by
  cases it <;>
    simp [TrainDataProcessor.predict, TrainDataProcessor.process_batch, hcuda,
      apply_ite]

/-- Witness for C10 on a concrete cuda-enabled instance and batch. -/
theorem cuda_transfer_mutates_batch_witness :
    (freshCudaA.predict collabA batchA true).batch.data = process_data batchA.data ∧
      (freshCudaA.process_batch collabA batchA true).batch.target
        = process_data batchA.target ∧
      (freshCudaA.process_batch collabA batchA true).batch.data
        = process_data batchA.data :=
  cuda_transfer_mutates_batch collabA freshCudaA batchA true rfl

end NP
